import Mathlib

/-!
# Verification of the roku-debug core against its specification

Shallow embedding of the repository's wire-protocol codec, client session
state machine, action queue and telnet request pipeline, together with
theorems settling the frozen claims about them.

Byte buffers are modelled as `List Nat` (one entry per byte); multi-byte
integers are little-endian, written with explicit `% 2^w` reductions where
the source relies on 32-bit machine arithmetic. Strings on the wire are
modelled as their UTF-8 byte lists.
-/

namespace RokuDebug

/-! ## Little-endian byte primitives (SmartBuffer reader/writer, §4.1) -/

/-- `writeUInt32LE`: the four little-endian bytes of `n % 2^32`. -/
def u32Bytes (n : Nat) : List Nat :=
  [n % 256, n / 256 % 256, n / 65536 % 256, n / 16777216 % 256]

/-- The unsigned 32-bit representative of a signed JS number (two's complement). -/
def natOfInt32 (i : Int) : Nat := (i % (4294967296 : Int)).toNat

/-- `writeInt32LE`: little-endian bytes of the two's-complement representative. -/
def i32Bytes (i : Int) : List Nat := u32Bytes (natOfInt32 i)

/-- Re-interpret an unsigned 32-bit value as signed (`readInt32LE`). -/
def intOfUInt32 (n : Nat) : Int :=
  if n < 2147483648 then (n : Int) else (n : Int) - 4294967296

/-- `readUInt32LE` consuming from the front of a byte list; fails on short read. -/
def readU32 : List Nat → Option (Nat × List Nat)
  | b0 :: b1 :: b2 :: b3 :: rest =>
      some (b0 + 256 * b1 + 65536 * b2 + 16777216 * b3, rest)
  | _ => none

/-- `readInt32LE` consuming from the front of a byte list; fails on short read. -/
def readI32 (l : List Nat) : Option (Int × List Nat) :=
  (readU32 l).map (fun p => (intOfUInt32 p.1, p.2))

/-- `readUInt8` consuming from the front of a byte list; fails on short read. -/
def readU8 : List Nat → Option (Nat × List Nat)
  | b :: rest => some (b, rest)
  | _ => none

/-- Modelled from the spec: `protocolUtils.readStringNT` (`ProtocolUtil.ts` is not
in the sources). Per §4.1, `read_cstring` consumes bytes until NUL and returns the
preceding bytes; reading past the end of the buffer (no NUL present) fails with
`ShortRead`. -/
def readStrNT : List Nat → Option (List Nat × List Nat)
  | [] => none
  | 0 :: rest => some ([], rest)
  | b :: rest => (readStrNT rest).map (fun p => (b :: p.1, p.2))

theorem u32Bytes_length (n : Nat) : (u32Bytes n).length = 4 := rfl

theorem readU32_u32Bytes (n : Nat) (h : n < 4294967296) (rest : List Nat) :
    readU32 (u32Bytes n ++ rest) = some (n, rest) := by
  simp only [u32Bytes, List.cons_append, List.nil_append, readU32, Option.some.injEq,
    Prod.mk.injEq, and_true]
  omega

theorem natOfInt32_lt (i : Int) : natOfInt32 i < 4294967296 := by
  unfold natOfInt32
  omega

theorem intOfUInt32_natOfInt32 (i : Int) (hlo : -2147483648 ≤ i) (hhi : i < 2147483648) :
    intOfUInt32 (natOfInt32 i) = i := by
  unfold intOfUInt32 natOfInt32
  split <;> omega

theorem readI32_i32Bytes (i : Int) (hlo : -2147483648 ≤ i) (hhi : i < 2147483648)
    (rest : List Nat) : readI32 (i32Bytes i ++ rest) = some (i, rest) := by
  unfold readI32 i32Bytes
  rw [readU32_u32Bytes _ (natOfInt32_lt i)]
  simp [intOfUInt32_natOfInt32 i hlo hhi]

theorem readStrNT_append (s : List Nat) (rest : List Nat) (h : ∀ b ∈ s, b ≠ 0) :
    readStrNT (s ++ 0 :: rest) = some (s, rest) := by
  induction s with
  | nil => simp [readStrNT]
  | cons b bs ih =>
      have hb : b ≠ 0 := h b (List.mem_cons_self b bs)
      have hbs : ∀ x ∈ bs, x ≠ 0 := fun x hx => h x (List.mem_cons_of_mem b hx)
      cases b with
      | zero => exact absurd rfl hb
      | succ b' => simp [readStrNT, ih hbs]

/-! ## Protocol constants

Modelled from the spec: `Constants.ts` is not in the sources. §6 gives the
command codes `{Stop=1, Continue=2, Threads=3, StackTrace=4, Variables=5,
Step=6, ExitChannel=7}`, the step types `{Line=1, Over=2, Out=3}`, the
update types in the order `{Undefined, IoPortOpened, AllThreadsStopped,
ThreadAttached}` (numbered from 0), the error codes in the order
`{OK, OtherErr, Undefined, NotStopped, CantContinue, NotStoppedDuringStep,
ThreadDetached, ExecutionTimeout, InvalidArgs}` (numbered from 0) and the
stop reasons `{NotStopped, Normal, StopStatement, Break, RuntimeError}`
(numbered from 0). -/

def CMD_STOP : Nat := 1
def CMD_CONTINUE : Nat := 2
def CMD_THREADS : Nat := 3
def CMD_STACKTRACE : Nat := 4
def CMD_VARIABLES : Nat := 5
def CMD_STEP : Nat := 6
def CMD_EXIT_CHANNEL : Nat := 7

def STEP_TYPE_LINE : Nat := 1
def STEP_TYPE_OVER : Nat := 2
def STEP_TYPE_OUT : Nat := 3

def UT_UNDEFINED : Nat := 0
def UT_IO_PORT_OPENED : Nat := 1
def UT_ALL_THREADS_STOPPED : Nat := 2
def UT_THREAD_ATTACHED : Nat := 3

def EC_OK : Nat := 0

/-- Reverse lookup `UPDATE_TYPES[n]` of the numeric update-type enum. -/
def updateTypeName (n : Nat) : Option String :=
  if n = 0 then some "UNDEFINED"
  else if n = 1 then some "CONNECT_IO_PORT"
  else if n = 2 then some "ALL_THREADS_STOPPED"
  else if n = 3 then some "THREAD_ATTACHED"
  else none

/-- Reverse lookup `ERROR_CODES[n]` of the numeric error-code enum. -/
def errorCodeName (n : Nat) : Option String :=
  if n = 0 then some "OK"
  else if n = 1 then some "OTHER_ERR"
  else if n = 2 then some "UNDEFINED_COMMAND"
  else if n = 3 then some "NOT_STOPPED"
  else if n = 4 then some "CANT_CONTINUE"
  else if n = 5 then some "NOT_STOPPED_DURING_STEP"
  else if n = 6 then some "THREAD_DETACHED"
  else if n = 7 then some "EXECUTION_TIMEOUT"
  else if n = 8 then some "INVALID_ARGS"
  else none

/-- Reverse lookup `STOP_REASONS[n]` of the numeric stop-reason enum. -/
def stopReasonName (n : Nat) : Option String :=
  if n = 0 then some "NOT_STOPPED"
  else if n = 1 then some "NORMAL"
  else if n = 2 then some "STOP_STATEMENT"
  else if n = 3 then some "BREAK"
  else if n = 4 then some "RUNTIME_ERROR"
  else none

/-! ## V3 codec: `ThreadAttachedUpdate` (src/unnamed/part_001) and
`StackTraceV3Response` (src/unnamed/part_000)

Both classes delegate their common-header handling to `protocolUtils`
(`ProtocolUtil.ts`, not in the sources). The helpers are modelled from the
spec, §4.2:

* common decode helper (`loadCommonUpdateFields` / `loadCommonResponseFields`):
  reads `packet_length`, `request_id`, then `error_code`; for updates it
  additionally validates `request_id == 0` and reads `update_type`, rejecting
  any frame whose decoded `update_type` differs from the expected value;
  `success=true` requires that the declared `packet_length` is fully present
  in the buffer, and the consumed length (`read_offset`) equals
  `packet_length`;
* common encode helper (`insertCommonUpdateFields` /
  `insertCommonResponseFields`): writes the body, then prepends
  `[packet_length, request_id, error_code, (update_type)]` with
  `packet_length` set to the final total byte length after prepending;
* `bufferLoaderHelper(event, buffer, minLength, processor)`: runs the
  processor when the buffer holds at least `minLength` bytes; any decode
  failure is reported via the `success=false` sentinel;
* `loadJson`: merges the given structured fields into the default-initialised
  `data` (so `packetLength` stays unset on a freshly JSON-built message). -/

structure ThreadAttachedData where
  threadIndex : Int
  stopReason : Nat
  stopReasonDetail : List Nat
  packetLength : Option Nat
  requestId : Nat
  errorCode : Nat
  updateType : Nat
deriving DecidableEq

structure ThreadAttachedUpdate where
  success : Bool
  readOffset : Nat
  data : ThreadAttachedData
deriving DecidableEq

/-- Default-initialised `data` of a `new ThreadAttachedUpdate()`. -/
def taDefaultData : ThreadAttachedData :=
  { threadIndex := 0
    stopReason := 0
    stopReasonDetail := []
    packetLength := none
    requestId := 0
    errorCode := EC_OK
    updateType := UT_THREAD_ATTACHED }

/-- `ThreadAttachedUpdate.fromJson`: merge the structured fields into the
defaults; `packetLength` stays unset. -/
def ThreadAttachedUpdate.fromJson (threadIndex : Int) (stopReason : Nat)
    (stopReasonDetail : List Nat) : ThreadAttachedUpdate :=
  { success := true
    readOffset := 0
    data := { taDefaultData with
                threadIndex := threadIndex
                stopReason := stopReason
                stopReasonDetail := stopReasonDetail } }

/-- `ThreadAttachedUpdate.toBuffer`: body `[thread_index:i32, stop_reason:u8,
stop_reason_detail:cstr]`, then the common update header is prepended with
`packet_length` equal to the total length after prepending. -/
def ThreadAttachedUpdate.toBuffer (u : ThreadAttachedUpdate) : List Nat :=
  let body := i32Bytes u.data.threadIndex ++ [u.data.stopReason % 256]
    ++ u.data.stopReasonDetail ++ [0]
  u32Bytes (body.length + 16) ++ u32Bytes u.data.requestId
    ++ u32Bytes u.data.errorCode ++ u32Bytes u.data.updateType ++ body

/-- The decode processor of `ThreadAttachedUpdate.fromBuffer` (common update
fields, then `thread_index:i32, stop_reason:u8, stop_reason_detail:cstr`). -/
def taDecode (buffer : List Nat) : Option ThreadAttachedData :=
  (readU32 buffer).bind fun pl =>
  (readU32 pl.2).bind fun rid =>
  (readU32 rid.2).bind fun ec =>
  (readU32 ec.2).bind fun ut =>
  if rid.1 = 0 ∧ ut.1 = UT_THREAD_ATTACHED ∧ pl.1 ≤ buffer.length then
    (readI32 ut.2).bind fun ti =>
    (readU8 ti.2).bind fun sr =>
    (readStrNT sr.2).bind fun detail =>
    some { threadIndex := ti.1
           stopReason := sr.1
           stopReasonDetail := detail.1
           packetLength := some pl.1
           requestId := rid.1
           errorCode := ec.1
           updateType := ut.1 }
  else none

/-- `ThreadAttachedUpdate.fromBuffer` via `bufferLoaderHelper` with a minimum
length of 12 bytes. -/
def ThreadAttachedUpdate.fromBuffer (buffer : List Nat) : ThreadAttachedUpdate :=
  if 12 ≤ buffer.length then
    match taDecode buffer with
    | some d => { success := true, readOffset := d.packetLength.getD 0, data := d }
    | none => { success := false, readOffset := 0, data := taDefaultData }
  else { success := false, readOffset := 0, data := taDefaultData }

structure StackEntry where
  lineNumber : Nat
  functionName : List Nat
  filePath : List Nat
deriving DecidableEq

structure StackTraceData where
  entries : List StackEntry
  packetLength : Option Nat
  requestId : Nat
  errorCode : Nat
deriving DecidableEq

structure StackTraceV3Response where
  success : Bool
  readOffset : Nat
  data : StackTraceData
deriving DecidableEq

/-- Default-initialised `data` of a `new StackTraceV3Response()`. -/
def stDefaultData : StackTraceData :=
  { entries := [], packetLength := none, requestId := 0, errorCode := EC_OK }

/-- `StackTraceV3Response.fromJson`: merge the structured fields into the
defaults; `packetLength` stays unset (`entries ??= []` on a missing list is
subsumed by passing the list explicitly). -/
def StackTraceV3Response.fromJson (requestId : Nat) (entries : List StackEntry) :
    StackTraceV3Response :=
  { success := true
    readOffset := 0
    data := { stDefaultData with requestId := requestId, entries := entries } }

/-- The body bytes of one stack entry:
`line_number:u32, function_name:cstr, file_path:cstr`. -/
def encodeEntry (e : StackEntry) : List Nat :=
  u32Bytes e.lineNumber ++ e.functionName ++ [0] ++ e.filePath ++ [0]

/-- `StackTraceV3Response.toBuffer`: `stack_size:u32` and the entry bodies,
then the common response header is prepended with `packet_length` equal to
the total length after prepending. -/
def StackTraceV3Response.toBuffer (r : StackTraceV3Response) : List Nat :=
  let body := u32Bytes r.data.entries.length ++ (r.data.entries.map encodeEntry).flatten
  u32Bytes (body.length + 12) ++ u32Bytes r.data.requestId
    ++ u32Bytes r.data.errorCode ++ body

/-- The entry-reading loop of `StackTraceV3Response.fromBuffer`: reads
`stack_size` many `(line_number, function_name, file_path)` records. -/
def readEntries : Nat → List Nat → Option (List StackEntry × List Nat)
  | 0, b => some ([], b)
  | n + 1, b =>
    (readU32 b).bind fun line =>
    (readStrNT line.2).bind fun fn =>
    (readStrNT fn.2).bind fun fp =>
    (readEntries n fp.2).map fun rec =>
      ({ lineNumber := line.1, functionName := fn.1, filePath := fp.1 } :: rec.1, rec.2)

/-- The decode processor of `StackTraceV3Response.fromBuffer` (common response
fields, then `stack_size` and the entry list). -/
def stDecode (buffer : List Nat) : Option StackTraceData :=
  (readU32 buffer).bind fun pl =>
  (readU32 pl.2).bind fun rid =>
  (readU32 rid.2).bind fun ec =>
  if pl.1 ≤ buffer.length then
    (readU32 ec.2).bind fun sz =>
    (readEntries sz.1 sz.2).bind fun es =>
    some { entries := es.1
           packetLength := some pl.1
           requestId := rid.1
           errorCode := ec.1 }
  else none

/-- `StackTraceV3Response.fromBuffer` via `bufferLoaderHelper` with a minimum
length of 16 bytes. -/
def StackTraceV3Response.fromBuffer (buffer : List Nat) : StackTraceV3Response :=
  if 16 ≤ buffer.length then
    match stDecode buffer with
    | some d => { success := true, readOffset := d.packetLength.getD 0, data := d }
    | none => { success := false, readOffset := 0, data := stDefaultData }
  else { success := false, readOffset := 0, data := stDefaultData }

/-- Validity of a JSON-built stack entry: the line number fits in a `u32` and
the strings are NUL-free byte lists. -/
def StackEntryValid (e : StackEntry) : Prop :=
  e.lineNumber < 4294967296 ∧ (∀ b ∈ e.functionName, b ≠ 0 ∧ b < 256) ∧
    (∀ b ∈ e.filePath, b ≠ 0 ∧ b < 256)

theorem readEntries_encode (es : List StackEntry) (rest : List Nat)
    (h : ∀ e ∈ es, StackEntryValid e) :
    readEntries es.length ((es.map encodeEntry).flatten ++ rest) = some (es, rest) := by
  induction es with
  | nil => simp [readEntries]
  | cons e es ih =>
      obtain ⟨hline, hfn, hfp⟩ := h e (List.mem_cons_self e es)
      have hrest : ∀ x ∈ es, StackEntryValid x := fun x hx => h x (List.mem_cons_of_mem e hx)
      simp only [List.length_cons, List.map_cons, List.flatten_cons, readEntries, encodeEntry,
        List.append_assoc, List.singleton_append, List.cons_append, List.nil_append]
      rw [readU32_u32Bytes _ hline]
      simp only [Option.bind_eq_bind, Option.some_bind]
      rw [readStrNT_append _ _ (fun b hb => (hfn b hb).1)]
      simp only [Option.some_bind]
      rw [readStrNT_append _ _ (fun b hb => (hfp b hb).1)]
      simp only [Option.some_bind]
      rw [ih hrest]
      rfl

instance : DecidablePred StackEntryValid := fun e => by
  unfold StackEntryValid
  infer_instance

theorem taToBuffer_fromJson (ti : Int) (sr : Nat) (detail : List Nat) :
    ThreadAttachedUpdate.toBuffer (ThreadAttachedUpdate.fromJson ti sr detail)
      = u32Bytes (detail.length + 22) ++ (u32Bytes 0 ++ (u32Bytes 0 ++ (u32Bytes 3
          ++ (i32Bytes ti ++ ([sr % 256] ++ (detail ++ [0])))))) := by
  simp only [ThreadAttachedUpdate.toBuffer, ThreadAttachedUpdate.fromJson, taDefaultData,
    List.append_assoc]
  have h : (i32Bytes ti ++ ([sr % 256] ++ (detail ++ [0]))).length + 16
      = detail.length + 22 := by
    simp [i32Bytes, u32Bytes]
  rw [h]
  rfl

theorem taRoundtrip (ti : Int) (sr : Nat) (detail : List Nat)
    (h1 : -2147483648 ≤ ti) (h2 : ti < 2147483648) (h3 : sr < 256)
    (h4 : ∀ b ∈ detail, b ≠ 0) (h5 : detail.length + 22 < 4294967296) :
    ThreadAttachedUpdate.fromBuffer
        (ThreadAttachedUpdate.toBuffer (ThreadAttachedUpdate.fromJson ti sr detail))
      = { success := true
          readOffset :=
            (ThreadAttachedUpdate.toBuffer (ThreadAttachedUpdate.fromJson ti sr detail)).length
          data := { (ThreadAttachedUpdate.fromJson ti sr detail).data with
                      packetLength := some (ThreadAttachedUpdate.toBuffer
                        (ThreadAttachedUpdate.fromJson ti sr detail)).length } } := by
  rw [taToBuffer_fromJson]
  have hlen : (u32Bytes (detail.length + 22) ++ (u32Bytes 0 ++ (u32Bytes 0 ++ (u32Bytes 3
      ++ (i32Bytes ti ++ ([sr % 256] ++ (detail ++ [0]))))))).length = detail.length + 22 := by
    simp [u32Bytes, i32Bytes]
  have hdec : taDecode (u32Bytes (detail.length + 22) ++ (u32Bytes 0 ++ (u32Bytes 0
      ++ (u32Bytes 3 ++ (i32Bytes ti ++ ([sr % 256] ++ (detail ++ [0])))))))
      = some { threadIndex := ti
               stopReason := sr
               stopReasonDetail := detail
               packetLength := some (detail.length + 22)
               requestId := 0
               errorCode := 0
               updateType := 3 } := by
    unfold taDecode
    rw [readU32_u32Bytes _ h5]
    simp only [Option.bind_eq_bind, Option.some_bind]
    rw [readU32_u32Bytes _ (by omega)]
    simp only [Option.some_bind]
    rw [readU32_u32Bytes _ (by omega)]
    simp only [Option.some_bind]
    rw [readU32_u32Bytes _ (by omega)]
    simp only [Option.some_bind, hlen]
    rw [if_pos (by simp [UT_THREAD_ATTACHED])]
    rw [readI32_i32Bytes ti h1 h2]
    simp only [Option.some_bind, List.singleton_append, readU8]
    rw [readStrNT_append detail [] h4]
    simp only [Option.some_bind, Nat.mod_eq_of_lt h3]
  unfold ThreadAttachedUpdate.fromBuffer
  rw [hdec, hlen, if_pos (by omega)]
  simp [ThreadAttachedUpdate.fromJson, taDefaultData, EC_OK, UT_THREAD_ATTACHED]

theorem stToBuffer_fromJson (rid : Nat) (entries : List StackEntry) :
    StackTraceV3Response.toBuffer (StackTraceV3Response.fromJson rid entries)
      = u32Bytes ((entries.map encodeEntry).flatten.length + 16) ++ (u32Bytes rid
          ++ (u32Bytes 0 ++ (u32Bytes entries.length
          ++ (entries.map encodeEntry).flatten))) := by
  simp only [StackTraceV3Response.toBuffer, StackTraceV3Response.fromJson, stDefaultData,
    List.append_assoc]
  have h : (u32Bytes entries.length ++ (entries.map encodeEntry).flatten).length + 12
      = (entries.map encodeEntry).flatten.length + 16 := by
    simp [u32Bytes]
  rw [h]
  rfl

theorem stRoundtrip (rid : Nat) (entries : List StackEntry)
    (h1 : rid < 4294967296) (h2 : ∀ e ∈ entries, StackEntryValid e)
    (h3 : entries.length < 4294967296)
    (h4 : (entries.map encodeEntry).flatten.length + 16 < 4294967296) :
    StackTraceV3Response.fromBuffer
        (StackTraceV3Response.toBuffer (StackTraceV3Response.fromJson rid entries))
      = { success := true
          readOffset :=
            (StackTraceV3Response.toBuffer (StackTraceV3Response.fromJson rid entries)).length
          data := { (StackTraceV3Response.fromJson rid entries).data with
                      packetLength := some (StackTraceV3Response.toBuffer
                        (StackTraceV3Response.fromJson rid entries)).length } } := by
  rw [stToBuffer_fromJson]
  have hlen : (u32Bytes ((entries.map encodeEntry).flatten.length + 16) ++ (u32Bytes rid
      ++ (u32Bytes 0 ++ (u32Bytes entries.length ++ (entries.map encodeEntry).flatten)))).length
      = (entries.map encodeEntry).flatten.length + 16 := by
    simp [u32Bytes]
  have hdec : stDecode (u32Bytes ((entries.map encodeEntry).flatten.length + 16)
      ++ (u32Bytes rid ++ (u32Bytes 0 ++ (u32Bytes entries.length
      ++ (entries.map encodeEntry).flatten))))
      = some { entries := entries
               packetLength := some ((entries.map encodeEntry).flatten.length + 16)
               requestId := rid
               errorCode := 0 } := by
    unfold stDecode
    rw [readU32_u32Bytes _ h4]
    simp only [Option.bind_eq_bind, Option.some_bind]
    rw [readU32_u32Bytes _ h1]
    simp only [Option.some_bind]
    rw [readU32_u32Bytes _ (by omega)]
    simp only [Option.some_bind, hlen]
    rw [if_pos (Nat.le_refl _)]
    rw [readU32_u32Bytes _ h3]
    simp only [Option.some_bind]
    have := readEntries_encode entries [] h2
    rw [List.append_nil] at this
    rw [this]
    simp only [Option.some_bind]
  unfold StackTraceV3Response.fromBuffer
  rw [hdec, hlen, if_pos (by omega)]
  simp [StackTraceV3Response.fromJson, stDefaultData, EC_OK]

/-- **C1.** For every message value of a codec type (`ThreadAttachedUpdate`,
`StackTraceV3Response`) built via `fromJson`, decoding its encoding is the
identity on the data fields: `fromBuffer(x.toBuffer()).data` equals `x.data`
field-wise, except that `packetLength` on the decoded side equals the exact
byte length of `x.toBuffer()` while it is unset (`none`) on a freshly
JSON-built message. The hypotheses state that the JSON fields are physically
representable: the thread index fits in an `i32`, the stop reason in a `u8`,
strings are NUL-free byte lists, and the frames fit in `u32` lengths. -/
theorem c1_codec_roundtrip (ti : Int) (sr : Nat) (detail : List Nat)
    (rid : Nat) (entries : List StackEntry)
    (h1 : -2147483648 ≤ ti) (h2 : ti < 2147483648) (h3 : sr < 256)
    (h4 : ∀ b ∈ detail, b ≠ 0) (h5 : detail.length + 22 < 4294967296)
    (h6 : rid < 4294967296) (h7 : ∀ e ∈ entries, StackEntryValid e)
    (h8 : entries.length < 4294967296)
    (h9 : (entries.map encodeEntry).flatten.length + 16 < 4294967296) :
    ((ThreadAttachedUpdate.fromJson ti sr detail).data.packetLength = none
      ∧ ThreadAttachedUpdate.fromBuffer
          (ThreadAttachedUpdate.toBuffer (ThreadAttachedUpdate.fromJson ti sr detail))
        = { success := true
            readOffset :=
              (ThreadAttachedUpdate.toBuffer (ThreadAttachedUpdate.fromJson ti sr detail)).length
            data := { (ThreadAttachedUpdate.fromJson ti sr detail).data with
                        packetLength := some (ThreadAttachedUpdate.toBuffer
                          (ThreadAttachedUpdate.fromJson ti sr detail)).length } })
    ∧ ((StackTraceV3Response.fromJson rid entries).data.packetLength = none
      ∧ StackTraceV3Response.fromBuffer
          (StackTraceV3Response.toBuffer (StackTraceV3Response.fromJson rid entries))
        = { success := true
            readOffset :=
              (StackTraceV3Response.toBuffer (StackTraceV3Response.fromJson rid entries)).length
            data := { (StackTraceV3Response.fromJson rid entries).data with
                        packetLength := some (StackTraceV3Response.toBuffer
                          (StackTraceV3Response.fromJson rid entries)).length } }) :=
  ⟨⟨rfl, taRoundtrip ti sr detail h1 h2 h3 h4 h5⟩,
   ⟨rfl, stRoundtrip rid entries h6 h7 h8 h9⟩⟩

/-- Witness for C1 at a concrete input: the `ThreadAttachedUpdate` of the
repository's own serialization test (threadIndex 1, stopReason `Break`,
detail `"because"`) and a two-entry stack trace. -/
theorem c1_codec_roundtrip_witness :
    ((ThreadAttachedUpdate.fromJson 1 3 [98, 101, 99, 97, 117, 115, 101]).data.packetLength = none
      ∧ ThreadAttachedUpdate.fromBuffer
          (ThreadAttachedUpdate.toBuffer
            (ThreadAttachedUpdate.fromJson 1 3 [98, 101, 99, 97, 117, 115, 101]))
        = { success := true
            readOffset := (ThreadAttachedUpdate.toBuffer
              (ThreadAttachedUpdate.fromJson 1 3 [98, 101, 99, 97, 117, 115, 101])).length
            data := { (ThreadAttachedUpdate.fromJson 1 3 [98, 101, 99, 97, 117, 115, 101]).data with
                        packetLength := some (ThreadAttachedUpdate.toBuffer
                          (ThreadAttachedUpdate.fromJson 1 3 [98, 101, 99, 97, 117, 115, 101])).length } })
    ∧ ((StackTraceV3Response.fromJson 2 [⟨10, [109, 97, 105, 110], [112, 107, 103]⟩,
          ⟨20, [102, 111, 111], [112, 107, 103, 50]⟩]).data.packetLength = none
      ∧ StackTraceV3Response.fromBuffer
          (StackTraceV3Response.toBuffer
            (StackTraceV3Response.fromJson 2 [⟨10, [109, 97, 105, 110], [112, 107, 103]⟩,
              ⟨20, [102, 111, 111], [112, 107, 103, 50]⟩]))
        = { success := true
            readOffset := (StackTraceV3Response.toBuffer
              (StackTraceV3Response.fromJson 2 [⟨10, [109, 97, 105, 110], [112, 107, 103]⟩,
                ⟨20, [102, 111, 111], [112, 107, 103, 50]⟩])).length
            data := { (StackTraceV3Response.fromJson 2 [⟨10, [109, 97, 105, 110], [112, 107, 103]⟩,
                        ⟨20, [102, 111, 111], [112, 107, 103, 50]⟩]).data with
                        packetLength := some (StackTraceV3Response.toBuffer
                          (StackTraceV3Response.fromJson 2 [⟨10, [109, 97, 105, 110], [112, 107, 103]⟩,
                            ⟨20, [102, 111, 111], [112, 107, 103, 50]⟩])).length } }) :=
  c1_codec_roundtrip 1 3 [98, 101, 99, 97, 117, 115, 101] 2
    [⟨10, [109, 97, 105, 110], [112, 107, 103]⟩, ⟨20, [102, 111, 111], [112, 107, 103, 50]⟩]
    (by decide) (by decide) (by decide) (by decide) (by decide) (by decide)
    (by decide) (by decide) (by decide)

/-! ## Old-style update decoder: `DebuggerUpdateThreads`
(src/src/DebuggerUpdateThreads.ts)

This decoder drives a `SmartBuffer` cursor directly. The cursor semantics of
the `smart-buffer` library are: the fixed-width readers throw when fewer
bytes than requested remain (modelled as `none`, caught by the decoder's
`try/catch`); `readStringNT` scans for the next NUL, returns the bytes before
it, and sets the read offset to one past the NUL position — when no NUL is
found it returns all remaining bytes and leaves the read offset at
`buffer.length + 1`, one past the end. -/

structure SB where
  buf : List Nat
  off : Nat
deriving DecidableEq

/-- `SmartBuffer.readUInt32LE` at the cursor; `none` models the out-of-bounds
throw. -/
def SB.readUInt32LE (b : SB) : Option (Nat × SB) :=
  if b.off + 4 ≤ b.buf.length then
    some (b.buf.getD b.off 0 + 256 * b.buf.getD (b.off + 1) 0
        + 65536 * b.buf.getD (b.off + 2) 0 + 16777216 * b.buf.getD (b.off + 3) 0,
      { b with off := b.off + 4 })
  else none

/-- `SmartBuffer.readInt32LE` at the cursor. -/
def SB.readInt32LE (b : SB) : Option (Int × SB) :=
  (b.readUInt32LE).map (fun p => (intOfUInt32 p.1, p.2))

/-- `SmartBuffer.readUInt8` at the cursor. -/
def SB.readUInt8 (b : SB) : Option (Nat × SB) :=
  if b.off + 1 ≤ b.buf.length then
    some (b.buf.getD b.off 0, { b with off := b.off + 1 })
  else none

/-- `SmartBuffer.readStringNT` at the cursor: bytes before the next NUL (or
all remaining bytes when no NUL exists), cursor moved one past the NUL. -/
def SB.readStringNT (b : SB) : List Nat × SB :=
  let s := (b.buf.drop b.off).takeWhile (fun x => x ≠ 0)
  (s, { b with off := b.off + s.length + 1 })

/-- Payload of a decoded threads update: `ThreadsStopped`
(`primary_thread_index:i32, stop_reason:u8, stop_reason_detail`) or
`ThreadAttached` (`thread_index:i32`, same trailing fields). -/
inductive ThreadsUpdatePayload where
  | threadsStopped (primaryThreadIndex : Int) (stopReason : Option String)
      (stopReasonDetail : List Nat)
  | threadAttached (threadIndex : Int) (stopReason : Option String)
      (stopReasonDetail : List Nat)
deriving DecidableEq

structure DebuggerUpdateThreads where
  success : Bool
  byteLength : Nat
  requestId : Int
  errorCode : Option String
  updateType : Option String
  data : Option ThreadsUpdatePayload
deriving DecidableEq

/-- The `ThreadsStopped` constructor: requires six more bytes beyond the
cursor, then reads `i32`, `u8` and a NUL-terminated string. -/
def threadsStoppedRead (sb : SB) : Option (ThreadsUpdatePayload × SB) :=
  if sb.off + 6 ≤ sb.buf.length then
    (sb.readInt32LE).bind fun pti =>
    (pti.2.readUInt8).bind fun sr =>
    let detail := sr.2.readStringNT
    some (.threadsStopped pti.1 (stopReasonName sr.1) detail.1, detail.2)
  else none

/-- The `ThreadAttached` constructor: identical layout to `ThreadsStopped`. -/
def threadAttachedRead (sb : SB) : Option (ThreadsUpdatePayload × SB) :=
  if sb.off + 6 ≤ sb.buf.length then
    (sb.readInt32LE).bind fun ti =>
    (ti.2.readUInt8).bind fun sr =>
    let detail := sr.2.readStringNT
    some (.threadAttached ti.1 (stopReasonName sr.1) detail.1, detail.2)
  else none

/-- `new DebuggerUpdateThreads(buffer)`: requires at least 12 buffered bytes,
reads `request_id`, and — when it is zero — `error_code` and `update_type`
(by numeric-enum reverse lookup), then the payload selected by the update
type; on payload success, `byteLength` is the final cursor offset. There is
no `packet_length` field in this frame layout. -/
def debuggerUpdateThreads (buffer : List Nat) : DebuggerUpdateThreads :=
  let failed : DebuggerUpdateThreads :=
    { success := false, byteLength := 0, requestId := -1, errorCode := none,
      updateType := none, data := none }
  if 12 ≤ buffer.length then
    match (⟨buffer, 0⟩ : SB).readUInt32LE with
    | none => failed
    | some rid =>
      if rid.1 = 0 then
        match rid.2.readUInt32LE with
        | none => { failed with requestId := 0 }
        | some ec =>
          match ec.2.readUInt32LE with
          | none => { failed with requestId := 0, errorCode := errorCodeName ec.1 }
          | some ut =>
            let base : DebuggerUpdateThreads :=
              { failed with
                  requestId := 0
                  errorCode := errorCodeName ec.1
                  updateType := updateTypeName ut.1 }
            let payload : Option (ThreadsUpdatePayload × SB) :=
              if updateTypeName ut.1 = some "ALL_THREADS_STOPPED" then
                threadsStoppedRead ut.2
              else if updateTypeName ut.1 = some "THREAD_ATTACHED" then
                threadAttachedRead ut.2
              else none
            match payload with
            | some p =>
              { base with
                  success := true
                  data := some p.1
                  byteLength := p.2.off }
            | none => base
      else { failed with requestId := rid.1 }
  else failed

/-- The full 25-byte wire frame of an `ALL_THREADS_STOPPED` update with
`primary_thread_index = 1`, `stop_reason = 1` and
`stop_reason_detail = "because"`. -/
def allThreadsStoppedFrame : List Nat :=
  [0, 0, 0, 0, 0, 0, 0, 0, 2, 0, 0, 0, 1, 0, 0, 0, 1,
   98, 101, 99, 97, 117, 115, 101, 0]

/-- **C2.** Claimed: when the bytes of an `AllThreadsStopped` update are
delivered in two chunks with the split inside `stop_reason_detail`, decoding
the first chunk alone yields `success = false`, and `success = true` requires
the full declared `packet_length` worth of bytes. The code refutes this: the
first 20 bytes of the 25-byte frame (the split lands after `"bec"`, inside
the detail string) decode with `success = true`, a silently truncated
`stop_reason_detail = "bec"`, and a consumed `byteLength` of 21 — one byte
PAST the end of the 20-byte chunk — because the frame layout read by
`DebuggerUpdateThreads` has no `packet_length` field at all and
`readStringNT` truncates at the end of the buffer instead of failing. -/
theorem c2_split_decode_truncates :
    (allThreadsStoppedFrame.take 20).length = 20
      ∧ allThreadsStoppedFrame.length = 25
      ∧ (debuggerUpdateThreads (allThreadsStoppedFrame.take 20)).success = true
      ∧ (debuggerUpdateThreads (allThreadsStoppedFrame.take 20)).byteLength = 21
      ∧ (debuggerUpdateThreads (allThreadsStoppedFrame.take 20)).data
          = some (.threadsStopped 1 (some "NORMAL") [98, 101, 99])
      ∧ (debuggerUpdateThreads allThreadsStoppedFrame).data
          = some (.threadsStopped 1 (some "NORMAL") [98, 101, 99, 97, 117, 115, 101]) := by
  decide

/-! ## Client session state machine: `BrightscriptDebugger`
(src/src/BrightscriptDebugger.ts)

The session owns the handshake flag, the protocol version, the stop state,
the monotonically increasing request counter, the pending-request table and
the unhandled-bytes buffer. Socket writes are recorded in `writes`; I/O-port
connections in `ioPorts`; `socketClosed` models `CONTROLLER_CLIENT.end()`.
The JS field `primaryThread` starts out `undefined`; it is modelled as `-1`,
which behaves identically in every guard of the source (`undefined > -1` and
`-1 > -1` are both `false`). -/

structure RequestRecord where
  commandType : Nat
  extraData : Option (List (List Nat))
deriving DecidableEq

structure Session where
  handshakeComplete : Bool := false
  protocolVersion : List Nat := []
  primaryThread : Int := -1
  stackFrameIndex : Nat := 0
  firstRunContinueFired : Bool := false
  stopped : Bool := false
  totalRequests : Nat := 0
  activeRequests : List (Nat × RequestRecord) := []
  unhandledData : List Nat := []
  writes : List (List Nat) := []
  ioPorts : List Nat := []
  socketClosed : Bool := false
deriving DecidableEq

/-- `makeRequest`: allocate the next request id, prepend
`[packet_length, request_id, command_code]` (the packet length is the body
length plus the 12-byte header), write the packet and record the request. -/
def makeRequest (s : Session) (body : List Nat) (command : Nat)
    (extraData : Option (List (List Nat))) : Nat × Session :=
  let requestId := s.totalRequests + 1
  let packet := u32Bytes (body.length + 12) ++ u32Bytes requestId ++ u32Bytes command ++ body
  (requestId,
   { s with
       totalRequests := requestId
       writes := s.writes ++ [packet]
       activeRequests :=
         (requestId, ⟨command, extraData⟩) :: s.activeRequests.filter (fun p => p.1 != requestId) })

/-- `continue()`: issue a `Continue` request when stopped, else `-1`; then
set `stopped` to whether a command was sent. -/
def continueOp (s : Session) : Int × Session :=
  let commandSent : Int × Session :=
    if s.stopped then
      let r := makeRequest s [] CMD_CONTINUE none
      ((r.1 : Int), r.2)
    else (-1, s)
  (commandSent.1, { commandSent.2 with stopped := decide (commandSent.1 > -1) })

/-- `pause()`: issue a `Stop` request only when not stopped. -/
def pauseOp (s : Session) : Int × Session :=
  if s.stopped then (-1, s)
  else
    let r := makeRequest s [] CMD_STOP none
    ((r.1 : Int), r.2)

/-- `exitChannel()`: issue an `ExitChannel` request unconditionally. -/
def exitChannelOp (s : Session) : Int × Session :=
  let r := makeRequest s [] CMD_EXIT_CHANNEL none
  ((r.1 : Int), r.2)

/-- `step(stepType)`: body `[thread_index:u32, step_type:u8]`; issued only
when stopped. -/
def stepOp (s : Session) (stepType : Nat) : Int × Session :=
  let body := u32Bytes (natOfInt32 s.primaryThread) ++ [stepType % 256]
  if s.stopped then
    let r := makeRequest s body CMD_STEP none
    ((r.1 : Int), r.2)
  else (-1, s)

def stepInOp (s : Session) : Int × Session := stepOp s STEP_TYPE_LINE

def stepOverOp (s : Session) : Int × Session := stepOp s STEP_TYPE_OVER

def stepOutOp (s : Session) : Int × Session := stepOp s STEP_TYPE_OUT

/-- `threads()`: empty body; issued only when stopped. -/
def threadsOp (s : Session) : Int × Session :=
  if s.stopped then
    let r := makeRequest s [] CMD_THREADS none
    ((r.1 : Int), r.2)
  else (-1, s)

/-- `stackTrace(threadIndex)`: body `[thread_index:u32]`; issued only when
stopped and the thread index is non-negative. -/
def stackTraceOp (s : Session) (threadIndex : Int) : Int × Session :=
  let body := u32Bytes (natOfInt32 threadIndex)
  if s.stopped ∧ threadIndex > -1 then
    let r := makeRequest s body CMD_STACKTRACE none
    ((r.1 : Int), r.2)
  else (-1, s)

/-- `getVariables(variablePathEntries, getChildKeys, stackFrameIndex,
threadIndex)`: body `[flags:u8, thread_index:u32, stack_frame_index:u32,
path_len:u32, path_entries:cstr[]]`; issued only when stopped and the thread
index is non-negative. -/
def getVariablesOp (s : Session) (variablePathEntries : List (List Nat))
    (getChildKeys : Bool) (stackFrameIndex : Nat) (threadIndex : Int) : Int × Session :=
  if s.stopped ∧ threadIndex > -1 then
    let body := [if getChildKeys then 1 else 0] ++ u32Bytes (natOfInt32 threadIndex)
      ++ u32Bytes stackFrameIndex ++ u32Bytes variablePathEntries.length
      ++ (variablePathEntries.map (fun p => p ++ [0])).flatten
    let r := makeRequest s body CMD_VARIABLES (some variablePathEntries)
    ((r.1 : Int), r.2)
  else (-1, s)

/-- The `primaryThreadIndex` of a decoded threads update (`-1` stands for the
JS `undefined` of a non-`ThreadsStopped` payload). -/
def DebuggerUpdateThreads.primaryThreadIndex (u : DebuggerUpdateThreads) : Int :=
  match u.data with
  | some (.threadsStopped pti _ _) => pti
  | _ => -1

/-- The post-stop request burst of `handleThreadsUpdate`'s else-branch:
`threads(); stackTrace(); getVariables(['m']); stepIn()` (`'m'` is byte 109). -/
def stopRequestBurst (s : Session) : Session :=
  let s1 := (threadsOp s).2
  let s2 := (stackTraceOp s1 s1.primaryThread).2
  let s3 := (getVariablesOp s2 [[109]] true s2.stackFrameIndex s2.primaryThread).2
  (stepInOp s3).2

/-- `handleThreadsUpdate`: set `stopped`, then — for `ALL_THREADS_STOPPED` —
either fire the first-run continue (setting the flag, not surfacing the
stop), or record the primary thread index, reset the stack frame index and
issue the post-stop request burst. -/
def handleThreadsUpdate (update : DebuggerUpdateThreads) (s : Session) : Session :=
  let s := { s with stopped := true }
  if update.updateType = some "ALL_THREADS_STOPPED" then
    if s.firstRunContinueFired = false then
      let s := (continueOp s).2
      { s with firstRunContinueFired := true }
    else
      let s := { s with primaryThread := update.primaryThreadIndex, stackFrameIndex := 0 }
      stopRequestBurst s
  else s

/-! ### Old-style frame decoders used by `parseUnhandledData`

`DebuggerRequestResponse.ts`, `DebuggerVariableRequestResponse.ts`,
`DebuggerStacktraceRequestResponse.ts`, `DebuggerThreadsRequestResponse.ts`,
`DebuggerHandshake.ts`, `DebuggerUpdateUndefined.ts` and
`DebuggerUpdateConnectIoPort.ts` are not in the sources; only
`DebuggerUpdateThreads.ts` is. They are modelled from the spec. -/

structure DebuggerRequestResponse where
  success : Bool
  byteLength : Nat
  requestId : Nat
  errorCode : Option String
deriving DecidableEq

/-- Modelled from the spec: `DebuggerRequestResponse` (missing
`DebuggerRequestResponse.ts`). Per §3 a response frame carries
`packet_length`, `request_id` (nonzero — zero denotes an asynchronous
update) and `error_code`; per §4.2 `success = true` requires the declared
`packet_length` to be fully present, and the consumed length is the packet
length. -/
def debuggerRequestResponse (buffer : List Nat) : DebuggerRequestResponse :=
  match (readU32 buffer).bind (fun pl => (readU32 pl.2).bind (fun rid =>
      (readU32 rid.2).map (fun ec => (pl.1, rid.1, ec.1)))) with
  | some (pl, rid, ec) =>
      if rid ≠ 0 ∧ pl ≤ buffer.length then
        { success := true, byteLength := pl, requestId := rid,
          errorCode := errorCodeName ec }
      else { success := false, byteLength := 0, requestId := rid, errorCode := none }
  | none => { success := false, byteLength := 0, requestId := 0, errorCode := none }

/-- Modelled from the spec: `DebuggerVariableRequestResponse` (missing
`DebuggerVariableRequestResponse.ts`). The spec gives no body layout for the
variables response beyond the common header and packet-length consumption
(§4.2 decode contract), which this decoder applies. -/
def debuggerVariableRequestResponse (buffer : List Nat) : DebuggerRequestResponse :=
  debuggerRequestResponse buffer

/-- Modelled from the spec: `DebuggerStacktraceRequestResponse` (missing
`DebuggerStacktraceRequestResponse.ts`). Common header plus packet-length
consumption per the §4.2 decode contract. -/
def debuggerStacktraceRequestResponse (buffer : List Nat) : DebuggerRequestResponse :=
  debuggerRequestResponse buffer

/-- Modelled from the spec: `DebuggerThreadsRequestResponse` (missing
`DebuggerThreadsRequestResponse.ts`). Common header plus packet-length
consumption per the §4.2 decode contract. -/
def debuggerThreadsRequestResponse (buffer : List Nat) : DebuggerRequestResponse :=
  debuggerRequestResponse buffer

structure DebuggerHandshake where
  success : Bool
  byteLength : Nat
  magic : List Nat
  majorVersion : Nat
  minorVersion : Nat
  patchVersion : Nat
deriving DecidableEq

/-- The 7 bytes of the ASCII literal `bsdebug`. -/
def debuggerMagicBytes : List Nat := [98, 115, 100, 101, 98, 117, 103]

/-- Modelled from the spec: `DebuggerHandshake` (missing
`DebuggerHandshake.ts`). Per §3 a handshake frame is a null-terminated magic
string followed by three u32 LE version fields; a short read fails. -/
def debuggerHandshake (buffer : List Nat) : DebuggerHandshake :=
  match (readStrNT buffer).bind (fun m => (readU32 m.2).bind (fun maj =>
      (readU32 maj.2).bind (fun mi => (readU32 mi.2).map (fun pat =>
        (m.1, maj.1, mi.1, pat.1))))) with
  | some (m, maj, mi, pat) =>
      { success := true, byteLength := m.length + 13, magic := m,
        majorVersion := maj, minorVersion := mi, patchVersion := pat }
  | none =>
      { success := false, byteLength := 0, magic := [],
        majorVersion := 0, minorVersion := 0, patchVersion := 0 }

structure SimpleUpdate where
  success : Bool
  byteLength : Nat
  requestId : Nat
  errorCode : Option String
  data : Nat
deriving DecidableEq

/-- Modelled from the spec: `DebuggerUpdateUndefined` (missing
`DebuggerUpdateUndefined.ts`). The update-frame layout instantiated by the
in-source sibling `DebuggerUpdateThreads`: `request_id` (must be 0),
`error_code`, `update_type` (must decode to `UNDEFINED`); empty body. -/
def debuggerUpdateUndefined (buffer : List Nat) : SimpleUpdate :=
  match (readU32 buffer).bind (fun rid => (readU32 rid.2).bind (fun ec =>
      (readU32 ec.2).map (fun ut => (rid.1, ec.1, ut.1)))) with
  | some (rid, ec, ut) =>
      if rid = 0 ∧ updateTypeName ut = some "UNDEFINED" then
        { success := true, byteLength := 12, requestId := 0,
          errorCode := errorCodeName ec, data := 0 }
      else { success := false, byteLength := 0, requestId := rid,
             errorCode := none, data := 0 }
  | none => { success := false, byteLength := 0, requestId := 0,
              errorCode := none, data := 0 }

/-- Modelled from the spec: `DebuggerUpdateConnectIoPort` (missing
`DebuggerUpdateConnectIoPort.ts`). Same header as the sibling update
decoders with `update_type = CONNECT_IO_PORT`, followed by the u32 LE I/O
port number carried as `data`. -/
def debuggerUpdateConnectIoPort (buffer : List Nat) : SimpleUpdate :=
  match (readU32 buffer).bind (fun rid => (readU32 rid.2).bind (fun ec =>
      (readU32 ec.2).bind (fun ut => (readU32 ut.2).map (fun port =>
        (rid.1, ec.1, ut.1, port.1))))) with
  | some (rid, ec, ut, port) =>
      if rid = 0 ∧ updateTypeName ut = some "CONNECT_IO_PORT" then
        { success := true, byteLength := 16, requestId := 0,
          errorCode := errorCodeName ec, data := port }
      else { success := false, byteLength := 0, requestId := rid,
             errorCode := none, data := 0 }
  | none => { success := false, byteLength := 0, requestId := 0,
              errorCode := none, data := 0 }

/-! ### `parseUnhandledData`

The parser is fuelled: `parse (fuel+1)` performs one `parseUnhandledData`
pass, recursing through `removedProcessedBytes` with fuel `fuel`. `.fault`
models an uncaught JS exception — in particular the `TypeError` thrown by
`this.activeRequests[requestId].commandType` when the request id is not in
the table. -/

inductive ParseResult where
  | res (returned : Bool) (s : Session)
  | fault
  | outOfFuel
deriving DecidableEq

/-- After `removedProcessedBytes(...)` returns, every call site of
`parseUnhandledData` returns `true`; faults and fuel exhaustion propagate. -/
def afterRPB : ParseResult → ParseResult
  | .res _ s => .res true s
  | x => x

/-- `removedProcessedBytes`: delete the request record (when the handled
frame carries a request id present in the table), slice the consumed bytes
off the head of `unhandledData`, and re-parse. -/
def removedProcessedBytesWith (recur : Session → ParseResult) (requestId : Option Nat)
    (byteLength : Nat) (s : Session) : ParseResult :=
  recur { s with
    activeRequests :=
      match requestId with
      | some rid => s.activeRequests.filter (fun p => p.1 != rid)
      | none => s.activeRequests
    unhandledData := s.unhandledData.drop byteLength }

/-- `verifyHandshake`: on a valid magic, store the protocol version, set
`handshakeComplete` and slice off the handshake bytes (re-parsing the rest);
on a mismatch, close the socket and return `false`. -/
def verifyHandshakeWith (recur : Session → ParseResult) (hs : DebuggerHandshake)
    (s : Session) : ParseResult :=
  if hs.magic = debuggerMagicBytes then
    afterRPB (removedProcessedBytesWith recur none hs.byteLength
      { s with
          protocolVersion := [hs.majorVersion, hs.minorVersion, hs.patchVersion]
          handshakeComplete := true })
  else .res false { s with socketClosed := true }

/-- The update-decoding tail of `parseUnhandledData` (threads update, then
undefined update, then connect-I/O-port update), reached when no response
frame was dispatched. -/
def parseUpdates (recur : Session → ParseResult) (s : Session) : ParseResult :=
  let dut := debuggerUpdateThreads s.unhandledData
  if dut.success then
    afterRPB (removedProcessedBytesWith recur (some dut.requestId.toNat) dut.byteLength
      (handleThreadsUpdate dut s))
  else
    let duu := debuggerUpdateUndefined s.unhandledData
    if duu.success then
      afterRPB (removedProcessedBytesWith recur (some duu.requestId) duu.byteLength s)
    else
      let dcio := debuggerUpdateConnectIoPort s.unhandledData
      if dcio.success then
        afterRPB (removedProcessedBytesWith recur (some dcio.requestId) dcio.byteLength
          { s with ioPorts := s.ioPorts ++ [dcio.data] })
      else .res false s

/-- `parseUnhandledData`: after the handshake, try a response frame first —
looking up the pending request by `request_id` and selecting the body decoder
by the recorded command code — falling through to the update decoders;
before the handshake, only a handshake frame is ever decoded. -/
def parse : Nat → Session → ParseResult
  | 0, _ => .outOfFuel
  | fuel + 1, s =>
    if s.handshakeComplete then
      let drr := debuggerRequestResponse s.unhandledData
      if drr.success then
        match s.activeRequests.lookup drr.requestId with
        | none => .fault
        | some rec =>
          if rec.commandType = CMD_STOP ∨ rec.commandType = CMD_CONTINUE
              ∨ rec.commandType = CMD_STEP ∨ rec.commandType = CMD_EXIT_CHANNEL then
            afterRPB (removedProcessedBytesWith (parse fuel) (some drr.requestId)
              drr.byteLength s)
          else if rec.commandType = CMD_VARIABLES
              ∧ (debuggerVariableRequestResponse s.unhandledData).success then
            afterRPB (removedProcessedBytesWith (parse fuel)
              (some (debuggerVariableRequestResponse s.unhandledData).requestId)
              (debuggerVariableRequestResponse s.unhandledData).byteLength s)
          else if rec.commandType = CMD_STACKTRACE
              ∧ (debuggerStacktraceRequestResponse s.unhandledData).success then
            afterRPB (removedProcessedBytesWith (parse fuel)
              (some (debuggerStacktraceRequestResponse s.unhandledData).requestId)
              (debuggerStacktraceRequestResponse s.unhandledData).byteLength s)
          else if rec.commandType = CMD_THREADS
              ∧ (debuggerThreadsRequestResponse s.unhandledData).success then
            afterRPB (removedProcessedBytesWith (parse fuel)
              (some (debuggerThreadsRequestResponse s.unhandledData).requestId)
              (debuggerThreadsRequestResponse s.unhandledData).byteLength s)
          else parseUpdates (parse fuel) s
      else parseUpdates (parse fuel) s
    else
      let hs := debuggerHandshake s.unhandledData
      if hs.success then verifyHandshakeWith (parse fuel) hs s
      else .res false s

theorem Session.set_stopped_false_eq (s : Session) (h : s.stopped = false) :
    { s with stopped := false } = s := by
  cases s
  simp_all

/-- **C10.** The `continue` operation never changes the `stopped` flag: when
stopped, the request is issued and `stopped = commandSent > -1` re-sets it to
`true`; when running, the call returns `-1` and `stopped = -1 > -1` re-sets
it to `false`. -/
theorem c10_continue_preserves_stopped (s : Session) :
    ((continueOp s).2).stopped = s.stopped := by
  unfold continueOp makeRequest
  cases h : s.stopped with
  | false => simp [h]
  | true =>
      simp only [h, if_true, if_pos]
      simp only [decide_eq_true_eq]
      omega

/-- **C5.** Whenever `stopped = false`, each of `continue`, `step`, `threads`,
`stackTrace` and `getVariables` returns `-1` with the session state — wire,
request counter, request table and all — left completely unchanged; `pause`
issues its request exactly when `stopped = false`; `exitChannel` issues its
request unconditionally. -/
theorem c5_stopped_gating (s : Session) (stepType : Nat) (threadIndex : Int)
    (variablePathEntries : List (List Nat)) (getChildKeys : Bool) (stackFrameIndex : Nat) :
    (s.stopped = false →
      continueOp s = (-1, s)
      ∧ stepOp s stepType = (-1, s)
      ∧ threadsOp s = (-1, s)
      ∧ stackTraceOp s threadIndex = (-1, s)
      ∧ getVariablesOp s variablePathEntries getChildKeys stackFrameIndex threadIndex = (-1, s)
      ∧ pauseOp s = (((s.totalRequests + 1 : Nat) : Int),
          { s with
              totalRequests := s.totalRequests + 1
              writes := s.writes ++ [u32Bytes 12 ++ u32Bytes (s.totalRequests + 1)
                ++ u32Bytes CMD_STOP]
              activeRequests := (s.totalRequests + 1, ⟨CMD_STOP, none⟩)
                :: s.activeRequests.filter (fun p => p.1 != s.totalRequests + 1) }))
    ∧ (s.stopped = true → pauseOp s = (-1, s))
    ∧ exitChannelOp s = (((s.totalRequests + 1 : Nat) : Int),
        { s with
            totalRequests := s.totalRequests + 1
            writes := s.writes ++ [u32Bytes 12 ++ u32Bytes (s.totalRequests + 1)
              ++ u32Bytes CMD_EXIT_CHANNEL]
            activeRequests := (s.totalRequests + 1, ⟨CMD_EXIT_CHANNEL, none⟩)
              :: s.activeRequests.filter (fun p => p.1 != s.totalRequests + 1) }) := by
  refine ⟨fun h => ⟨?_, ?_, ?_, ?_, ?_, ?_⟩, fun h => ?_, ?_⟩
  · unfold continueOp
    simp only [h, if_false, Bool.false_eq_true]
    rw [show (decide ((-1 : Int) > -1)) = false from rfl]
    rw [Session.set_stopped_false_eq s h]
  · unfold stepOp
    simp [h]
  · unfold threadsOp
    simp [h]
  · unfold stackTraceOp
    simp [h]
  · unfold getVariablesOp
    simp [h]
  · unfold pauseOp makeRequest
    simp [h]
  · unfold pauseOp
    simp [h]
  · unfold exitChannelOp makeRequest
    simp

/-- Witness for C5 at concrete inputs: a fresh session (running) and a
stopped session. -/
theorem c5_stopped_gating_witness :
    (continueOp {} = (-1, {})
      ∧ stepOp {} 1 = (-1, {})
      ∧ threadsOp {} = (-1, {})
      ∧ stackTraceOp {} 0 = (-1, {})
      ∧ getVariablesOp {} [[109]] true 0 0 = (-1, {})
      ∧ pauseOp {} = (((1 : Nat) : Int),
          { totalRequests := 1
            writes := [u32Bytes 12 ++ u32Bytes 1 ++ u32Bytes CMD_STOP]
            activeRequests := [(1, ⟨CMD_STOP, none⟩)] }))
    ∧ pauseOp { stopped := true } = (-1, { stopped := true })
    ∧ exitChannelOp {} = (((1 : Nat) : Int),
        { totalRequests := 1
          writes := [u32Bytes 12 ++ u32Bytes 1 ++ u32Bytes CMD_EXIT_CHANNEL]
          activeRequests := [(1, ⟨CMD_EXIT_CHANNEL, none⟩)] }) := by
  refine ⟨?_, ?_, ?_⟩
  · have h := (c5_stopped_gating {} 1 0 [[109]] true 0).1 rfl
    exact ⟨h.1, h.2.1, h.2.2.1, h.2.2.2.1, h.2.2.2.2.1, h.2.2.2.2.2⟩
  · exact (c5_stopped_gating { stopped := true } 1 0 [[109]] true 0).2.1 rfl
  · exact (c5_stopped_gating {} 1 0 [[109]] true 0).2.2

theorem threadsOp_fields (s : Session) :
    ((threadsOp s).2).stopped = s.stopped
    ∧ ((threadsOp s).2).primaryThread = s.primaryThread
    ∧ ((threadsOp s).2).stackFrameIndex = s.stackFrameIndex := by
  unfold threadsOp makeRequest
  split <;> simp

theorem stackTraceOp_fields (s : Session) (threadIndex : Int) :
    ((stackTraceOp s threadIndex).2).stopped = s.stopped
    ∧ ((stackTraceOp s threadIndex).2).primaryThread = s.primaryThread
    ∧ ((stackTraceOp s threadIndex).2).stackFrameIndex = s.stackFrameIndex := by
  unfold stackTraceOp makeRequest
  split <;> simp

theorem getVariablesOp_fields (s : Session) (v : List (List Nat)) (g : Bool)
    (f : Nat) (threadIndex : Int) :
    ((getVariablesOp s v g f threadIndex).2).stopped = s.stopped
    ∧ ((getVariablesOp s v g f threadIndex).2).primaryThread = s.primaryThread
    ∧ ((getVariablesOp s v g f threadIndex).2).stackFrameIndex = s.stackFrameIndex := by
  unfold getVariablesOp makeRequest
  split <;> simp

theorem stepOp_fields (s : Session) (stepType : Nat) :
    ((stepOp s stepType).2).stopped = s.stopped
    ∧ ((stepOp s stepType).2).primaryThread = s.primaryThread
    ∧ ((stepOp s stepType).2).stackFrameIndex = s.stackFrameIndex := by
  unfold stepOp makeRequest
  split <;> simp

theorem stopRequestBurst_preserves (s : Session) :
    (stopRequestBurst s).stopped = s.stopped
    ∧ (stopRequestBurst s).primaryThread = s.primaryThread
    ∧ (stopRequestBurst s).stackFrameIndex = s.stackFrameIndex := by
  simp only [stopRequestBurst, stepInOp]
  refine ⟨?_, ?_, ?_⟩
  · rw [(stepOp_fields _ _).1, (getVariablesOp_fields _ _ _ _ _).1,
      (stackTraceOp_fields _ _).1, (threadsOp_fields _).1]
  · rw [(stepOp_fields _ _).2.1, (getVariablesOp_fields _ _ _ _ _).2.1,
      (stackTraceOp_fields _ _).2.1, (threadsOp_fields _).2.1]
  · rw [(stepOp_fields _ _).2.2, (getVariablesOp_fields _ _ _ _ _).2.2,
      (stackTraceOp_fields _ _).2.2, (threadsOp_fields _).2.2]

/-- **C4.** `handleThreadsUpdate` on an `ALL_THREADS_STOPPED` update: on the
first such update after connect (`firstRunContinueFired = false`, no prior
request issued) the session writes exactly one Continue request — the
12-byte packet `[packet_length=12, request_id=1, command=Continue]` — sets
`firstRunContinueFired`, and does not surface the stop (`primaryThread` and
`stackFrameIndex` are untouched and no further request is issued); on every
subsequent such update it sets `stopped = true`, `primaryThread` to the
update's primary thread index and `stackFrameIndex` to `0`. -/
theorem c4_threads_update (s : Session) (upd : DebuggerUpdateThreads)
    (pti : Int) (sr : Option String) (detail : List Nat)
    (hut : upd.updateType = some "ALL_THREADS_STOPPED")
    (hdata : upd.data = some (.threadsStopped pti sr detail)) :
    (s.firstRunContinueFired = false → s.totalRequests = 0 →
      handleThreadsUpdate upd s
        = { s with
            stopped := true
            firstRunContinueFired := true
            totalRequests := 1
            writes := s.writes ++ [u32Bytes 12 ++ u32Bytes 1 ++ u32Bytes CMD_CONTINUE]
            activeRequests := (1, ⟨CMD_CONTINUE, none⟩)
              :: s.activeRequests.filter (fun p => p.1 != 1) })
    ∧ (s.firstRunContinueFired = true →
        (handleThreadsUpdate upd s).stopped = true
        ∧ (handleThreadsUpdate upd s).primaryThread = pti
        ∧ (handleThreadsUpdate upd s).stackFrameIndex = 0) := by
  constructor
  · intro h1 h2
    unfold handleThreadsUpdate continueOp makeRequest
    simp [hut, h1, h2]
  · intro h1
    unfold handleThreadsUpdate
    rw [if_pos hut]
    rw [if_neg (by simp [h1])]
    refine ⟨?_, ?_, ?_⟩
    · rw [(stopRequestBurst_preserves _).1]
    · rw [(stopRequestBurst_preserves _).2.1]
      simp [DebuggerUpdateThreads.primaryThreadIndex, hdata]
    · rw [(stopRequestBurst_preserves _).2.2]

/-- The concrete `ALL_THREADS_STOPPED` update used as the C4 witness. -/
def c4Update : DebuggerUpdateThreads :=
  { success := true, byteLength := 25, requestId := 0, errorCode := some "OK",
    updateType := some "ALL_THREADS_STOPPED",
    data := some (.threadsStopped 1 (some "NORMAL") [98, 101, 99]) }

/-- Witness for C4 at concrete inputs: a fresh session (first stop) and a
session whose first-run continue already fired. -/
theorem c4_threads_update_witness :
    handleThreadsUpdate c4Update {}
      = { stopped := true
          firstRunContinueFired := true
          totalRequests := 1
          writes := [u32Bytes 12 ++ u32Bytes 1 ++ u32Bytes CMD_CONTINUE]
          activeRequests := [(1, ⟨CMD_CONTINUE, none⟩)] }
    ∧ ((handleThreadsUpdate c4Update { firstRunContinueFired := true }).stopped = true
        ∧ (handleThreadsUpdate c4Update { firstRunContinueFired := true }).primaryThread = 1
        ∧ (handleThreadsUpdate c4Update { firstRunContinueFired := true }).stackFrameIndex = 0) :=
  ⟨(c4_threads_update {} c4Update 1 (some "NORMAL") [98, 101, 99] rfl rfl).1 rfl rfl,
   (c4_threads_update { firstRunContinueFired := true } c4Update 1 (some "NORMAL")
      [98, 101, 99] rfl rfl).2 rfl⟩

/-- A post-handshake session holding a complete 12-byte response frame with
`request_id = 1` while no request is pending: the state reached when the
device answers a request the client does not have in its table. -/
def c3UnknownSession : Session :=
  { handshakeComplete := true
    unhandledData := [12, 0, 0, 0, 1, 0, 0, 0, 0, 0, 0, 0] }

/-- The same frame with the matching `Continue` request pending. -/
def c3KnownSession : Session :=
  { c3UnknownSession with activeRequests := [(1, ⟨CMD_CONTINUE, none⟩)] }

/-- **C3.** Claimed: a response whose `request_id` is unknown makes `parse`
raise an `UnknownRequestId` protocol-violation error rather than dispatching
or faulting. The code refutes the error handling: on the very same frame
that dispatches fine when `request_id = 1` is in `active_requests` (last
conjunct — the record's command code selects the empty-body path, the frame
is consumed and the record removed), `parseUnhandledData` evaluates
`this.activeRequests[1].commandType` with the table empty and faults with a
`TypeError` (`.fault`), exactly the silent dereference called out in the
spec's open questions. -/
theorem c3_unknown_request_id_faults :
    (debuggerRequestResponse c3UnknownSession.unhandledData).success = true
    ∧ (debuggerRequestResponse c3UnknownSession.unhandledData).requestId = 1
    ∧ c3UnknownSession.activeRequests.lookup 1 = none
    ∧ parse 2 c3UnknownSession = .fault
    ∧ parse 2 c3KnownSession = .res true { handshakeComplete := true } := by
  decide

/-- **C6.** Before the handshake is complete, `parse` decodes nothing but a
handshake frame: on a valid `bsdebug` magic it stores the protocol version,
sets `handshakeComplete` and slices the handshake bytes off `unhandledData`
before re-parsing; on a magic mismatch it closes the socket, leaves
`handshakeComplete` false and decodes nothing; on a short read it returns
leaving the session untouched. -/
theorem c6_handshake_gating (s : Session) (fuel : Nat)
    (hhs : s.handshakeComplete = false) :
    ((debuggerHandshake s.unhandledData).success = true →
      ((debuggerHandshake s.unhandledData).magic = debuggerMagicBytes →
        parse (fuel + 1) s
          = afterRPB (parse fuel
              { s with
                  handshakeComplete := true
                  protocolVersion := [(debuggerHandshake s.unhandledData).majorVersion,
                    (debuggerHandshake s.unhandledData).minorVersion,
                    (debuggerHandshake s.unhandledData).patchVersion]
                  unhandledData := s.unhandledData.drop
                    (debuggerHandshake s.unhandledData).byteLength }))
      ∧ ((debuggerHandshake s.unhandledData).magic ≠ debuggerMagicBytes →
          parse (fuel + 1) s = .res false { s with socketClosed := true }
          ∧ ({ s with socketClosed := true } : Session).handshakeComplete = false))
    ∧ ((debuggerHandshake s.unhandledData).success = false →
        parse (fuel + 1) s = .res false s) := by
  constructor
  · intro hsucc
    constructor
    · intro hmagic
      simp only [parse, verifyHandshakeWith, removedProcessedBytesWith]
      simp only [hhs, Bool.false_eq_true, if_false, hsucc, if_true, if_pos hmagic]
    · intro hmagic
      refine ⟨?_, hhs⟩
      unfold parse verifyHandshakeWith
      simp only [hhs, Bool.false_eq_true, if_false, hsucc, if_true, if_neg hmagic]
  · intro hfail
    unfold parse
    simp only [hhs, Bool.false_eq_true, if_false, hfail]

/-- A fresh session holding a complete, valid v3.1.0 handshake frame. -/
def c6Session : Session :=
  { unhandledData := debuggerMagicBytes ++ [0] ++ u32Bytes 3 ++ u32Bytes 1 ++ u32Bytes 0 }

/-- A fresh session holding a handshake frame whose magic is `xsdebug`. -/
def c6BadSession : Session :=
  { unhandledData := [120, 115, 100, 101, 98, 117, 103] ++ [0]
      ++ u32Bytes 3 ++ u32Bytes 1 ++ u32Bytes 0 }

/-- Witness for C6 at concrete inputs: a valid handshake and a bad-magic
handshake. -/
theorem c6_handshake_gating_witness :
    (parse 2 c6Session
      = afterRPB (parse 1
          { c6Session with
              handshakeComplete := true
              protocolVersion := [(debuggerHandshake c6Session.unhandledData).majorVersion,
                (debuggerHandshake c6Session.unhandledData).minorVersion,
                (debuggerHandshake c6Session.unhandledData).patchVersion]
              unhandledData := c6Session.unhandledData.drop
                (debuggerHandshake c6Session.unhandledData).byteLength }))
    ∧ (parse 2 c6BadSession = .res false { c6BadSession with socketClosed := true }
        ∧ ({ c6BadSession with socketClosed := true } : Session).handshakeComplete = false) :=
  ⟨((c6_handshake_gating c6Session 1 rfl).1 (by decide)).1 (by decide),
   ((c6_handshake_gating c6BadSession 1 rfl).1 (by decide)).2 (by decide)⟩

/-! ## Action queue (src/src/managers/ActionQueue.ts)

`run(action)` appends `{action, deferred}` and drives `_runActions`: while
the queue is non-empty, the head action is invoked; `true` removes the head
and resolves its deferred, a throw removes the head and rejects it, `false`
retains the head to be retried on the next scheduling opportunity. The
single-threaded cooperative driver is modelled as a fuelled loop; an action
is a function from its attempt number to an outcome, so retries can observe
progress. Events record each deferred's resolution. -/

inductive QOutcome where
  | finished
  | notFinished
  | thrown
deriving DecidableEq

inductive QEvent where
  | resolved (id : Nat)
  | rejected (id : Nat)
deriving DecidableEq

structure QItem where
  id : Nat
  attempts : Nat
  action : Nat → QOutcome

structure QState where
  items : List QItem
  events : List QEvent

/-- The `_runActions` loop: look at `queueItems[0]`, invoke its action, and
shift/resolve on `true`, shift/reject on a throw, or retry on `false`. -/
def runActions : Nat → QState → QState
  | 0, st => st
  | fuel + 1, st =>
    match st.items with
    | [] => st
    | it :: rest =>
      match it.action it.attempts with
      | .finished => runActions fuel ⟨rest, st.events ++ [.resolved it.id]⟩
      | .thrown => runActions fuel ⟨rest, st.events ++ [.rejected it.id]⟩
      | .notFinished => runActions fuel ⟨⟨it.id, it.attempts + 1, it.action⟩ :: rest, st.events⟩

/-- The queue settles an item with event `e` exactly when, after some number
of retries that all returned `false`, the action either returns `true` (the
deferred resolves) or throws (the deferred rejects). -/
def Completes (it : QItem) (e : QEvent) : Prop :=
  ∃ k, (∀ j < k, it.action (it.attempts + j) = .notFinished) ∧
    ((it.action (it.attempts + k) = .finished ∧ e = .resolved it.id) ∨
     (it.action (it.attempts + k) = .thrown ∧ e = .rejected it.id))

theorem completes_shift (it : QItem) (e : QEvent)
    (h : Completes ⟨it.id, it.attempts + 1, it.action⟩ e)
    (h0 : it.action it.attempts = .notFinished) : Completes it e := by
  obtain ⟨k, hj, ho⟩ := h
  refine ⟨k + 1, ?_, ?_⟩
  · intro j hjlt
    cases j with
    | zero => simpa using h0
    | succ j' =>
        have := hj j' (by omega)
        simpa [Nat.add_assoc, Nat.add_comm 1 j'] using this
  · simpa [Nat.add_assoc, Nat.add_comm 1 k] using ho

theorem drainHead (k : Nat) : ∀ (it : QItem) (rest : List QItem) (ev : List QEvent),
    (∀ j < k, it.action (it.attempts + j) = .notFinished) →
    it.action (it.attempts + k) ≠ .notFinished →
    ∃ e, Completes it e
      ∧ ∀ n, runActions (k + n + 1) ⟨it :: rest, ev⟩ = runActions n ⟨rest, ev ++ [e]⟩ := by
  induction k with
  | zero =>
      intro it rest ev hj h0
      rw [Nat.add_zero] at h0
      cases ho : it.action it.attempts with
      | finished =>
          refine ⟨.resolved it.id, ⟨0, by omega, Or.inl ⟨by simpa using ho, rfl⟩⟩, ?_⟩
          intro n
          have h1 : (0 : Nat) + n + 1 = n + 1 := by omega
          rw [h1]
          simp [runActions, ho]
      | thrown =>
          refine ⟨.rejected it.id, ⟨0, by omega, Or.inr ⟨by simpa using ho, rfl⟩⟩, ?_⟩
          intro n
          have h1 : (0 : Nat) + n + 1 = n + 1 := by omega
          rw [h1]
          simp [runActions, ho]
      | notFinished => exact absurd ho h0
  | succ k' ih =>
      intro it rest ev hj h0
      have hnf : it.action it.attempts = .notFinished := by
        have := hj 0 (by omega)
        simpa using this
      have hj' : ∀ j < k', it.action (it.attempts + 1 + j) = .notFinished := by
        intro j hjlt
        have := hj (j + 1) (by omega)
        simpa [Nat.add_assoc, Nat.add_comm 1 j] using this
      have h0' : it.action (it.attempts + 1 + k') ≠ .notFinished := by
        have h1 : it.attempts + 1 + k' = it.attempts + (k' + 1) := by omega
        rw [h1]
        exact h0
      obtain ⟨e, hc, heq⟩ := ih ⟨it.id, it.attempts + 1, it.action⟩ rest ev hj' h0'
      refine ⟨e, completes_shift it e hc hnf, ?_⟩
      intro n
      have hf : k' + 1 + n + 1 = (k' + n + 1) + 1 := by omega
      rw [hf]
      simp only [runActions, hnf]
      exact heq n

theorem drainAll : ∀ (items : List QItem) (ev : List QEvent),
    (∀ it ∈ items, ∃ k, it.action (it.attempts + k) ≠ .notFinished) →
    ∃ fuel evNew, runActions fuel ⟨items, ev⟩ = ⟨[], ev ++ evNew⟩
      ∧ List.Forall₂ Completes items evNew := by
  intro items
  induction items with
  | nil =>
      intro ev _
      exact ⟨0, [], by simp [runActions], List.Forall₂.nil⟩
  | cons it rest ih =>
      intro ev h
      have hex : ∃ k, it.action (it.attempts + k) ≠ .notFinished :=
        h it (List.mem_cons_self it rest)
      have hk0 : it.action (it.attempts + Nat.find hex) ≠ .notFinished := Nat.find_spec hex
      have hj : ∀ j < Nat.find hex, it.action (it.attempts + j) = .notFinished := by
        intro j hjlt
        have := Nat.find_min hex hjlt
        simpa using this
      obtain ⟨e, hc, heq⟩ := drainHead (Nat.find hex) it rest ev hj hk0
      obtain ⟨fuel2, evNew2, heq2, hforall2⟩ :=
        ih (ev ++ [e]) (fun x hx => h x (List.mem_cons_of_mem it hx))
      refine ⟨Nat.find hex + fuel2 + 1, e :: evNew2, ?_, List.Forall₂.cons hc hforall2⟩
      rw [heq fuel2, heq2]
      simp

/-- **C7.** For every action enqueued on the `ActionQueue`, exactly one
eventual settlement happens, in FIFO order, under the single-driver
cooperative semantics of `_runActions`: provided every enqueued action
eventually stops returning `false`, some fuel drains the whole queue and
pairs the enqueued items one-to-one, in enqueue order, with settlement
events (`Forall₂ Completes`), each item resolved when its action first
returned `true` and rejected when it threw; and whenever the head action
returns `false`, one step retains the head (attempts bumped) in front of
every later-enqueued item, so no later action can run before it. -/
theorem c7_action_queue (items : List QItem) (it : QItem) (rest : List QItem)
    (ev : List QEvent) (n : Nat)
    (hc : ∀ x ∈ items, ∃ k, x.action (x.attempts + k) ≠ .notFinished) :
    (∃ fuel evNew, runActions fuel ⟨items, []⟩ = ⟨[], evNew⟩
        ∧ List.Forall₂ Completes items evNew)
    ∧ (it.action it.attempts = .notFinished →
        runActions (n + 1) ⟨it :: rest, ev⟩
          = runActions n ⟨⟨it.id, it.attempts + 1, it.action⟩ :: rest, ev⟩) := by
  constructor
  · obtain ⟨fuel, evNew, heq, hforall⟩ := drainAll items [] hc
    exact ⟨fuel, evNew, by simpa using heq, hforall⟩
  · intro h
    simp [runActions, h]

/-- The concrete queue used as the C7 witness: item 0 returns `false` once
and then `true`; item 1 throws immediately. -/
def c7Items : List QItem :=
  [⟨0, 0, fun k => if k = 0 then .notFinished else .finished⟩,
   ⟨1, 0, fun _ => .thrown⟩]

/-- Witness for C7 at the concrete queue: the drain settles both items in
FIFO order, and one retry step retains the head. -/
theorem c7_action_queue_witness :
    (∃ fuel evNew, runActions fuel ⟨c7Items, []⟩ = ⟨[], evNew⟩
        ∧ List.Forall₂ Completes c7Items evNew)
    ∧ runActions 1 ⟨c7Items, []⟩
        = runActions 0
            ⟨[⟨0, 1, fun k => if k = 0 then QOutcome.notFinished else QOutcome.finished⟩,
              ⟨1, 0, fun _ => QOutcome.thrown⟩], []⟩ := by
  have hcompl : ∀ x ∈ c7Items, ∃ k, x.action (x.attempts + k) ≠ QOutcome.notFinished := by
    intro x hx
    rcases List.mem_cons.mp hx with h | hx2
    · subst h
      exact ⟨1, by decide⟩
    · rcases List.mem_cons.mp hx2 with h | h
      · subst h
        exact ⟨0, by decide⟩
      · simp at h
  have happ := c7_action_queue c7Items
    ⟨0, 0, fun k => if k = 0 then QOutcome.notFinished else QOutcome.finished⟩
    [⟨1, 0, fun _ => QOutcome.thrown⟩] [] 0 hcompl
  exact ⟨happ.1, happ.2 (by decide)⟩

/-! ## Telnet request pipeline (`TelnetRequestPipeline` and `Command`,
src/src/managers/ActionQueue.ts)

Text is modelled as `List Char`. The pipeline owns a command FIFO, an
optional active command, the `unhandledText` accumulator and the
`isAtDebuggerPrompt` flag; socket writes, emitted events and resolved
command deferreds are recorded. The helpers `ensureDebugPromptOnOwnLine`,
`removeThreadAttachedText`, `endsWithDebuggerPrompt` and
`endsWithThreadAttachedText` live in `util.ts`, which is not in the sources;
they are modelled from the spec, §4.5 (normalisation steps 3–5). -/

def promptChars : List Char := "Brightscript Debugger>".toList

def crlf : List Char := ['\r', '\n']

structure TCommand where
  commandText : List Char
  waitForPrompt : Bool
  completed : Bool
  id : Nat
deriving DecidableEq

inductive TEvent where
  | consoleOutput (data : List Char)
  | unhandledConsoleOutput (data : List Char)
deriving DecidableEq

structure Pipeline where
  commands : List TCommand := []
  activeCommand : Option TCommand := none
  isAtDebuggerPrompt : Bool := false
  unhandledText : List Char := []
  writes : List (List Char) := []
  emitted : List TEvent := []
  resolved : List (Nat × List Char) := []
deriving DecidableEq

def Pipeline.isProcessing (p : Pipeline) : Bool := p.activeCommand.isSome

def isWhitespaceChar (c : Char) : Bool :=
  c == ' ' || c == '\t' || c == '\r' || c == '\n'

/-- Trailing whitespace removed. -/
def dropTrailingWhitespace (t : List Char) : List Char :=
  (t.reverse.dropWhile isWhitespaceChar).reverse

/-- Whitespace trimmed from both ends. -/
def trimChars (t : List Char) : List Char :=
  dropTrailingWhitespace (t.dropWhile isWhitespaceChar)

/-- Modelled from the spec: `util.endsWithDebuggerPrompt` — whether the text
ends with the prompt token (ignoring trailing whitespace). -/
def endsWithDebuggerPrompt (t : List Char) : Bool :=
  promptChars.isSuffixOf (dropTrailingWhitespace t)

def threadAttachedChars : List Char := "Thread attached".toList

/-- Modelled from the spec: `util.endsWithThreadAttachedText` — whether the
text ends with a `Thread attached` notice (ignoring trailing whitespace). -/
def endsWithThreadAttachedText (t : List Char) : Bool :=
  threadAttachedChars.isSuffixOf (dropTrailingWhitespace t)

/-- Scanner of `ensureDebugPromptOnOwnLine`: insert a newline before any
prompt occurrence that is not at the start of a line. -/
def edpAux : Bool → List Char → List Char
  | _, [] => []
  | atLineStart, c :: rest =>
    if !atLineStart && promptChars.isPrefixOf (c :: rest) then
      '\n' :: c :: edpAux false rest
    else c :: edpAux (c == '\n') rest

/-- Modelled from the spec: `util.ensureDebugPromptOnOwnLine` — every prompt
token occurrence is made to begin on its own line. -/
def ensureDebugPromptOnOwnLine (t : List Char) : List Char := edpAux true t

/-- Modelled from the spec: `util.removeThreadAttachedText` — lines that are
pure `Thread attached` notices are stripped. -/
def removeThreadAttachedText (t : List Char) : List Char :=
  List.intercalate ['\n']
    ((t.splitOn '\n').filter (fun line => trimChars line != threadAttachedChars))

def warningChars : List Char := "warning: operation may not be interruptible.".toList

/-- Drop the first line that is the known warning notice. -/
def removeFirstWarningLine : List (List Char) → List (List Char)
  | [] => []
  | l :: rest =>
      if trimChars (l.map Char.toLower) = warningChars then rest
      else l :: removeFirstWarningLine rest

/-- `Command.removeJunk`: strip the `warning: operation may not be
interruptible.` line from a response. -/
def removeJunk (t : List Char) : List Char :=
  List.intercalate ['\n'] (removeFirstWarningLine (t.splitOn '\n'))

/-- `Command.execute`: emit and write the command text with trailing CRLF;
when the command waits for a prompt, executing it means we are no longer at
the debugger prompt. -/
def commandExecute (c : TCommand) (p : Pipeline) : Pipeline :=
  let text := c.commandText ++ crlf
  let p := { p with
      emitted := p.emitted ++ [TEvent.consoleOutput text]
      writes := p.writes ++ [text] }
  if c.waitForPrompt then { p with isAtDebuggerPrompt := false } else p

/-- The head of `executeNextCommand`: clear `activeCommand` when it has
finished processing. -/
def clearCompletedActive (p : Pipeline) : Pipeline :=
  match p.activeCommand with
  | some c => if c.completed then { p with activeCommand := none } else p
  | none => p

/-- `executeNextCommand`: after clearing a completed active command — if
there are queued commands, none is processing, and we are at a debugger
prompt — promote the head of the queue to active and execute it. -/
def executeNextCommand (p : Pipeline) : Pipeline :=
  let q := clearCompletedActive p
  match q.commands with
  | [] => q
  | c :: rest =>
    if q.isProcessing then q
    else if q.isAtDebuggerPrompt then
      commandExecute c { q with activeCommand := some c, commands := rest }
    else q

/-- The index of the first prompt occurrence in the text. -/
def findPromptIndex : Nat → List Char → Option Nat
  | _, [] => none
  | i, c :: rest =>
      if promptChars.isPrefixOf (c :: rest) then some i
      else findPromptIndex (i + 1) rest

/-- `Command.handleData`: scan for the first prompt; the text before it
(junk removed) is the response; the text after the prompt match (the regex
also swallows the following whitespace) is emitted as unhandled console
output; `unhandledText` is cleared and the deferred resolved (at most
once). -/
def commandHandleData (p : Pipeline) : Pipeline :=
  match p.activeCommand with
  | none => p
  | some c =>
    match findPromptIndex 0 p.unhandledText with
    | none => p
    | some idx =>
      let response := removeJunk (p.unhandledText.take idx)
      let leftover :=
        (p.unhandledText.drop (idx + promptChars.length)).dropWhile isWhitespaceChar
      let p :=
        if leftover.length > 0 then
          { p with emitted := p.emitted ++ [TEvent.unhandledConsoleOutput leftover] }
        else p
      { p with
          unhandledText := []
          activeCommand := some { c with completed := true }
          resolved :=
            if c.completed then p.resolved else p.resolved ++ [(c.id, response)] }

/-- `TelnetRequestPipeline.handleData`: forward the chunk, accumulate it,
normalise prompts, strip thread-attached notices, recompute the prompt flag;
coax a missing prompt after a trailing thread-attached notice; otherwise
hand the text to the active command, or emit-and-clear when the text
contains a newline (`/\n\s*/`) or ends at the prompt, or retain a partial
line; finally try to execute the next command. -/
def handleData (p : Pipeline) (data : List Char) : Pipeline :=
  let p := { p with emitted := p.emitted ++ [TEvent.consoleOutput data] }
  let p := { p with unhandledText := p.unhandledText ++ data }
  let p := { p with unhandledText := ensureDebugPromptOnOwnLine p.unhandledText }
  let p := { p with unhandledText := removeThreadAttachedText p.unhandledText }
  let p := { p with isAtDebuggerPrompt := endsWithDebuggerPrompt p.unhandledText }
  if !p.isAtDebuggerPrompt && endsWithThreadAttachedText p.unhandledText then
    { p with writes := p.writes ++ ["print \"\"\r\n".toList] }
  else
    let p :=
      if p.isProcessing then commandHandleData p
      else if p.unhandledText.contains '\n' || p.isAtDebuggerPrompt then
        { p with
            emitted := p.emitted ++ [TEvent.unhandledConsoleOutput p.unhandledText]
            unhandledText := [] }
      else p
    executeNextCommand p

/-- **C8.** A queued command is promoted to active and written to the socket
by `executeNextCommand` only when (after clearing a completed active
command) there is no active command and `isAtDebuggerPrompt` is true; the
promoted command is the queue head, and when it has `waitForPrompt` set,
`isAtDebuggerPrompt` is cleared immediately upon execution. (`write`, the
queue bypass, is a separate code path not involved here.) -/
theorem c8_telnet_gating (p : Pipeline)
    (hw : (executeNextCommand p).writes ≠ (clearCompletedActive p).writes) :
    (clearCompletedActive p).activeCommand = none
    ∧ (clearCompletedActive p).isAtDebuggerPrompt = true
    ∧ ∃ c rest, (clearCompletedActive p).commands = c :: rest
        ∧ (executeNextCommand p).writes
            = (clearCompletedActive p).writes ++ [c.commandText ++ crlf]
        ∧ (executeNextCommand p).activeCommand = some c
        ∧ (executeNextCommand p).commands = rest
        ∧ (c.waitForPrompt = true → (executeNextCommand p).isAtDebuggerPrompt = false) := by
  simp only [executeNextCommand] at hw ⊢
  cases hc : (clearCompletedActive p).commands with
  | nil =>
      simp only [hc] at hw
      exact absurd rfl hw
  | cons c rest =>
      simp only [hc] at hw ⊢
      by_cases hproc : (clearCompletedActive p).isProcessing = true
      · rw [if_pos hproc] at hw
        exact absurd rfl hw
      · rw [if_neg hproc] at hw ⊢
        by_cases hprompt : (clearCompletedActive p).isAtDebuggerPrompt = true
        · rw [if_pos hprompt] at hw ⊢
          refine ⟨?_, hprompt, c, rest, rfl, ?_, ?_, ?_, ?_⟩
          · unfold Pipeline.isProcessing at hproc
            simp only [Bool.not_eq_true] at hproc
            exact Option.not_isSome_iff_eq_none.mp (by simp [hproc])
          · unfold commandExecute
            split <;> rfl
          · unfold commandExecute
            split <;> rfl
          · unfold commandExecute
            split <;> rfl
          · intro hwp
            unfold commandExecute
            rw [if_pos hwp]
        · rw [if_neg hprompt] at hw
          exact absurd rfl hw

/-- The concrete pipeline used as the C8 witness: one queued
`waitForPrompt` command, idle at the prompt. -/
def c8Pipeline : Pipeline :=
  { commands := [⟨"print 5".toList, true, false, 0⟩]
    isAtDebuggerPrompt := true }

/-- Witness for C8 at the concrete pipeline: the head command is promoted,
written with CRLF, and the prompt flag is cleared. -/
theorem c8_telnet_gating_witness :
    (clearCompletedActive c8Pipeline).activeCommand = none
    ∧ (clearCompletedActive c8Pipeline).isAtDebuggerPrompt = true
    ∧ ∃ c rest, (clearCompletedActive c8Pipeline).commands = c :: rest
        ∧ (executeNextCommand c8Pipeline).writes
            = (clearCompletedActive c8Pipeline).writes ++ [c.commandText ++ crlf]
        ∧ (executeNextCommand c8Pipeline).activeCommand = some c
        ∧ (executeNextCommand c8Pipeline).commands = rest
        ∧ (c.waitForPrompt = true
            → (executeNextCommand c8Pipeline).isAtDebuggerPrompt = false) :=
  c8_telnet_gating c8Pipeline (by decide)

/-- **C9.** Claimed: with no active command, the whole accumulated text is
emitted as unhandled-console-output (and cleared) exactly when it ends with
a newline or the debugger prompt; a partial line not ending in either is
retained. The code refutes the "otherwise retained" half: the emission test
is the unanchored regex `/\n\s*/`, which matches an interior newline, so the
chunk `"a\nb"` — which ends in `'b'`, not a newline or prompt — is
nevertheless emitted whole and `unhandledText` cleared, contradicting the
claim and the code's own `//ends with newline` comment. -/
theorem c9_interior_newline_emitted :
    (handleData {} ['a', '\n', 'b']).emitted
        = [.consoleOutput ['a', '\n', 'b'], .unhandledConsoleOutput ['a', '\n', 'b']]
    ∧ (handleData {} ['a', '\n', 'b']).unhandledText = []
    ∧ ensureDebugPromptOnOwnLine ['a', '\n', 'b'] = ['a', '\n', 'b']
    ∧ removeThreadAttachedText ['a', '\n', 'b'] = ['a', '\n', 'b']
    ∧ endsWithDebuggerPrompt ['a', '\n', 'b'] = false
    ∧ ['a', '\n', 'b'].getLast? = some 'b' := by
  decide

end RokuDebug
